import Mathlib

/-!
Verification of the JobTracker v2 reconciliation loop
(`openeogeotrellis/job_tracker_v2.py`).

The Python module is shallowly embedded below:
* JSON values are modelled by `JVal` (numbers as rationals).
* Stateful code (registry writes, async scheduling, stats counters, log
  lines with billing data) is modelled as an explicit event trace:
  each external call that the tracker performs is one `Event`.
* Exceptions are modelled with `Except` / `Option`; the behaviour of
  each fallible external collaborator is an explicit input (`JobEnv`).
-/

namespace JobTrackerV2

/-! ## JSON values

Python's `json.loads` produces dicts, lists, strings, numbers, booleans
and `None` (for JSON `null`).  Numbers are modelled as rationals.
-/

inductive JVal where
  | jnull
  | jbool (b : Bool)
  | jnum (q : ℚ)
  | jstr (s : String)
  | jarr (xs : List JVal)
  | jdict (entries : List (String × JVal))

/-- Python `d.get(k)` on a dict (first binding wins, as in a JSON object). -/
def jget (entries : List (String × JVal)) (k : String) : Option JVal :=
  (entries.find? (fun p => p.1 = k)).map (fun p => p.2)

/-! ## Job metadata (`_JobMetadata` NamedTuple) -/

/-- One entry of a usage mapping: `{"value": ..., "unit": ...}`.
`value := none` models Python `None` (the JSON `null`). -/
structure UsageEntry where
  value : Option JVal
  unit : String

/-- A usage mapping: metric name to `UsageEntry`, in insertion order. -/
abbrev UsageMap := List (String × UsageEntry)

/-- Model of `_JobMetadata`: status, optional RFC3339 start/finish times, optional usage. -/
structure JobMetadata where
  status : String
  start_time : Option String
  finish_time : Option String
  usage : Option UsageMap

/-! ## RFC3339 formatting of epoch timestamps

Modelled from the spec: the source delegates to the external library
functions `datetime.datetime.utcfromtimestamp` and
`openeo.util.rfc3339.datetime` ("RFC-3339 formatted UTC datetime"),
which are not part of this repository.  The model below implements the
proleptic-Gregorian civil-from-days computation for non-negative
timestamps whose year fits in four digits (negative timestamps clamp to
the epoch and years are reduced mod 10000; both are outside the
modelled domain, which matches the YARN report domain of non-negative
millisecond timestamps).
-/

/-- A single decimal digit character. -/
def digitChar (n : Nat) : Char := Char.ofNat (48 + n)

/-- Two-digit zero-padded decimal rendering (as a char list). -/
def pad2 (n : Nat) : List Char := [digitChar (n / 10 % 10), digitChar (n % 10)]

/-- Four-digit zero-padded decimal rendering (as a char list). -/
def pad4 (n : Nat) : List Char :=
  [digitChar (n / 1000 % 10), digitChar (n / 100 % 10),
   digitChar (n / 10 % 10), digitChar (n % 10)]

/-- Civil date (year, month, day) from days since 1970-01-01,
Gregorian calendar (standard era-based algorithm). -/
def civilFromDays (days : Nat) : Nat × Nat × Nat :=
  let z := days + 719468
  let era := z / 146097
  let doe := z % 146097
  let yoe := (doe - doe / 1460 + doe / 36524 - doe / 146096) / 365
  let y := yoe + era * 400
  let doy := doe - (365 * yoe + yoe / 4 - yoe / 100)
  let mp := (5 * doy + 2) / 153
  let d := doy - (153 * mp + 2) / 5 + 1
  let m := if mp < 10 then mp + 3 else mp - 9
  (if m ≤ 2 then y + 1 else y, m, d)

/-- Format seconds since the epoch as `YYYY-MM-DDTHH:MM:SSZ`. -/
def epochSecondsToRfc3339 (secs : Nat) : String :=
  let days := secs / 86400
  let rem := secs % 86400
  let ymd := civilFromDays days
  let h := rem / 3600
  let mi := rem % 3600 / 60
  let s := rem % 60
  String.mk (pad4 ymd.1 ++ ['-'] ++ pad2 ymd.2.1 ++ ['-'] ++ pad2 ymd.2.2
    ++ ['T'] ++ pad2 h ++ [':'] ++ pad2 mi ++ [':'] ++ pad2 s ++ ['Z'])

/-- Read a two-digit decimal number back from two digit characters. -/
def twoDigits (a b : Char) : Nat := (a.toNat - 48) * 10 + (b.toNat - 48)

/-- Shape check for an RFC3339 UTC datetime string
`YYYY-MM-DDTHH:MM:SSZ` with in-range month/day/hour/minute/second. -/
def isRfc3339Z (str : String) : Bool :=
  match str.toList with
  | [y1, y2, y3, y4, '-', m1, m2, '-', d1, d2, 'T',
     h1, h2, ':', n1, n2, ':', s1, s2, 'Z'] =>
      [y1, y2, y3, y4, m1, m2, d1, d2, h1, h2, n1, n2, s1, s2].all Char.isDigit
      && decide (1 ≤ twoDigits m1 m2) && decide (twoDigits m1 m2 ≤ 12)
      && decide (1 ≤ twoDigits d1 d2) && decide (twoDigits d1 d2 ≤ 31)
      && decide (twoDigits h1 h2 ≤ 23)
      && decide (twoDigits n1 n2 ≤ 59) && decide (twoDigits s1 s2 ≤ 59)
  | _ => false

/-! ## YARN status getter (`YarnStatusGetter`) -/

/-- Errors that `YarnStatusGetter.get_job_metadata` can raise.
`parseException` is `YarnAppReportParseException`; `typeError` is a plain
Python `TypeError` (raised by `k not in report` when the `app` value is a
non-iterable JSON value); `httpError` is `requests` raising from
`raise_for_status`; `jsonDecodeError` is `response.json()` failing. -/
inductive YarnFetchError where
  | appNotFound
  | httpError (code : Nat)
  | jsonDecodeError
  | parseException
  | typeError
  deriving DecidableEq, Repr

/-- openEO job status constants (`openeo_driver.jobregistry.JOB_STATUS`). -/
def JOB_STATUS_FINISHED : String := "finished"

def JOB_STATUS_ERROR : String := "error"

def JOB_STATUS_CANCELED : String := "canceled"

namespace YarnStatusGetter

/-- Modelled from the spec: `yarn_state_to_openeo_job_status` lives in
`openeogeotrellis/integrations/yarn.py`, which is not under `src/`.
Per the spec it is a static lookup table reproducing YARN
RUNNING/ACCEPTED/FINISHED/KILLED/FAILED semantics with `finalStatus`
overriding `state` on completion; unmatched inputs fail (`none`), which
the caller wraps into `YarnAppReportParseException`. -/
def yarn_state_to_openeo_job_status (state final_state : JVal) : Option String :=
  match state with
  | .jstr s =>
    if s = "NEW" ∨ s = "NEW_SAVING" ∨ s = "SUBMITTED" ∨ s = "ACCEPTED" then
      some "queued"
    else if s = "RUNNING" then some "running"
    else if s = "KILLED" then some JOB_STATUS_CANCELED
    else if s = "FAILED" then some JOB_STATUS_ERROR
    else if s = "FINISHED" then
      match final_state with
      | .jstr f =>
        if f = "SUCCEEDED" then some JOB_STATUS_FINISHED
        else if f = "KILLED" then some JOB_STATUS_CANCELED
        else if f = "FAILED" then some JOB_STATUS_ERROR
        else none
      | _ => none
    else none
  | _ => none

/-- Model of `_ms_epoch_to_date`: millisecond epoch timestamp to RFC3339 (or `None`).
Python computes `epoch_millis / 1000` with true division and formats the
resulting `datetime` with second precision, i.e. it keeps
`floor(epoch_millis / 1000)` whole seconds. -/
def ms_epoch_to_date (epoch_millis : ℚ) : Option String :=
  if epoch_millis = 0 then none
  else some (epochSecondsToRfc3339 (Int.toNat ⌊epoch_millis / 1000⌋))

/-- Python `k in report` for the membership tests on the `app` value:
dict key lookup, substring test for strings, element equality for lists.
Non-iterable values (number/bool/null) raise `TypeError`, handled in
`missing_keys` below; this function is only consulted for iterables. -/
def pyIn (k : String) : JVal → Bool
  | .jdict entries => entries.any (fun p => p.1 = k)
  | .jstr s => (s.splitOn k).length ≥ 2
  | .jarr xs => xs.any (fun v => match v with | .jstr s => s = k | _ => false)
  | _ => false

def requiredKeys : List String := ["state", "finalStatus", "startedTime", "finishedTime"]

/-- The `missing_keys` list comprehension.  Returns `none` when Python
raises `TypeError` (`k not in report` on a non-iterable report). -/
def missing_keys (report : JVal) : Option (List String) :=
  match report with
  | .jnum _ => none
  | .jbool _ => none
  | .jnull => none
  | _ => some (requiredKeys.filter (fun k => !(pyIn k report)))

/-- Python `report[k]`: `none` models a raised exception
(`KeyError`/`TypeError`), which the surrounding `try` turns into
`YarnAppReportParseException`. -/
def pyIndex (report : JVal) (k : String) : Option JVal :=
  match report with
  | .jdict entries => jget entries k
  | _ => none

/-- Python `report.get(k)`: JSON `null` and a missing key are both `None`. -/
def pyGetOrNone (report : JVal) (k : String) : Option JVal :=
  match report with
  | .jdict entries =>
    match jget entries k with
    | some .jnull => none
    | v => v
  | _ => none

/-- Feeding the `startedTime` / `finishedTime` values through `_ms_epoch_to_date`:
numbers (and Python booleans, which are ints) succeed, everything else
raises inside the `try` block. -/
def msEpochField (v : JVal) : Option (Option String) :=
  match v with
  | .jnum q => some (ms_epoch_to_date q)
  | .jbool b => some (ms_epoch_to_date (if b then 1 else 0))
  | _ => none

/-- The body of the `try` block of `parse_application_response`:
any failure (`none`) becomes `YarnAppReportParseException`. -/
def parseReport (report : JVal) : Option JobMetadata :=
  match pyIndex report "state" with
  | none => none
  | some state =>
    match pyIndex report "finalStatus" with
    | none => none
    | some finalStatus =>
      match yarn_state_to_openeo_job_status state finalStatus with
      | none => none
      | some job_status =>
        match pyIndex report "startedTime" with
        | none => none
        | some startedTime =>
          match msEpochField startedTime with
          | none => none
          | some start_time =>
            match pyIndex report "finishedTime" with
            | none => none
            | some finishedTime =>
              match msEpochField finishedTime with
              | none => none
              | some finish_time =>
                some ⟨job_status, start_time, finish_time,
                  some [("memory", ⟨pyGetOrNone report "memorySeconds", "mb-seconds"⟩),
                        ("cpu", ⟨pyGetOrNone report "vcoreSeconds", "cpu-seconds"⟩)]⟩

/-- Model of `YarnStatusGetter.parse_application_response`. -/
def parse_application_response (data : List (String × JVal)) :
    Except YarnFetchError JobMetadata :=
  match missing_keys ((jget data "app").getD (.jdict [])) with
  | none => .error .typeError
  | some missing =>
    if missing.isEmpty then
      match parseReport ((jget data "app").getD (.jdict [])) with
      | some md => .ok md
      | none => .error .parseException
    else .error .parseException

/-- The YARN REST response: HTTP status code and JSON body
(`none` = the body is not valid JSON). -/
structure HttpResponse where
  status_code : Nat
  body : Option JVal

/-- Model of `YarnStatusGetter.get_job_metadata`, as a function of the HTTP
response.  `response.raise_for_status()` raises for codes in [400, 600). -/
def get_job_metadata (response : HttpResponse) : Except YarnFetchError JobMetadata :=
  if response.status_code = 404 then .error .appNotFound
  else if 400 ≤ response.status_code ∧ response.status_code < 600 then
    .error (.httpError response.status_code)
  else
    match response.body with
    | none => .error .jsonDecodeError
    | some (.jdict entries) => parse_application_response entries
    | some _ => .error .parseException

end YarnStatusGetter

/-! ## Kubernetes usage getter (`K8sStatusGetter._get_usage`) -/

namespace K8sStatusGetter

/-- One kubecost allocation record (`total_cost["data"][i][namespace]`).
A `none` field models a missing key, whose access raises `KeyError`. -/
structure KubecostAllocation where
  cpuCoreHours : Option ℚ
  ramByteHours : Option ℚ

/-- The decoded kubecost response body: `{"code": ..., "data": [...]}`,
each data element mapping namespace names to allocations. -/
structure KubecostBody where
  code : Int
  data : List (List (String × KubecostAllocation))

/-- Outcome of `requests.get(...)` + `raise_for_status` + `json()` against
kubecost: either some exception (network error, HTTP error status,
malformed JSON, missing toplevel key) or a decoded body. -/
inductive KubecostFetch where
  | fail (e : String)
  | ok (body : KubecostBody)

/-- Model of `K8sStatusGetter._get_usage`: every exception inside the `try`
block is caught and yields `none` (no usage data). -/
def get_usage (response : KubecostFetch) : Option UsageMap :=
  match response with
  | .fail _ => none
  | .ok body =>
    if body.code = 200 then
      match body.data with
      | [] => none
      | first :: _ =>
        match (first.find? (fun p => p.1 = "spark-jobs")).map (fun p => p.2) with
        | none => none
        | some cost =>
          match cost.cpuCoreHours, cost.ramByteHours with
          | some cpu, some ram =>
            some [("cpu", ⟨some (.jnum cpu), "cpu-hours"⟩),
                  ("memory", ⟨some (.jnum (ram / (1024 * 1024))), "mb-hours"⟩)]
          | _, _ => none
    else none

end K8sStatusGetter



/-! ## The tracker (`JobTracker`)

`update_statuses` / `_sync_job_status` are stateful: they write registries,
schedule cleanup tasks, bump stats counters and log billing lines.  Each
such effect is recorded as one `Event` in an explicit trace, and each
fallible external collaborator's behaviour is an input (`JobEnv`).
-/

/-- A job record returned by `ZkJobRegistry.get_running_jobs`.
An absent or empty string field models Python falsy values
(`.get(...)` returning `None` or `""`). -/
structure JobInfo where
  job_id : String
  user_id : String
  application_id : String
  status : Option String
  created : Option String
  dependency_sources : List String
  dependency_usage : Option ℚ

/-- An element of the list returned by `get_running_jobs`: either not a
dict at all, or a dict modelled by `JobInfo`. -/
inductive JobRecord where
  | notDict
  | dict (info : JobInfo)

/-- Outcome of `self._app_state_getter.get_job_metadata(...)`. -/
inductive MetaResult where
  | ok (md : JobMetadata)
  | appNotFound
  | exn (e : String)

/-- The parts of `get_results_metadata`'s result that the tracker reads:
`result_metadata.get("usage", {}).get("sentinelhub", {}).get("value", 0.0)`,
`result_metadata.get("area")` and
`result_metadata.get("unique_process_ids")`. -/
structure ResultMeta where
  sentinelhub_value : Option ℚ
  area : Option String
  unique_process_ids : List String

/-- Behaviour of the external collaborators for one job sync:
the app status getter, the results-metadata resolver, the three fallible
finalize steps (`some e` = that call raises `e`), whether an elastic
(secondary) registry is configured, and whether its `set_status` raises. -/
structure JobEnv where
  meta : MetaResult
  results_metadata : Except String ResultMeta
  patch_results_error : Option String
  remove_dependencies_error : Option String
  schedule_delete_error : Option String
  elastic_registry : Bool
  elastic_error : Option String

/-- One observable effect of a tracker pass. -/
inductive Event where
  | statSet (key : String) (n : Nat)
  | statIncr (key : String)
  | syncStart (job_id user_id : String)
  | zkSetStatus (job_id user_id status : String)
  | ejrSetStatus (job_id status : String) (started finished : Option String)
  | ejrSwallowed (context msg : String)
  | getResultsMeta (job_id user_id : String)
  | zkPatchResultsMeta (job_id user_id : String) (rm : ResultMeta)
  | zkRemoveDependencies (job_id user_id : String)
  | scheduleDeleteDependencySources (job_id user_id : String) (sources : List String)
  | logMarkedDone (job_id : String) (sentinelhub : ℚ)
  | zkPatchStatus (job_id user_id status : String) (started finished : Option String)
      (usage : Option UsageMap)

/-- Rendering of an optional previous status inside an f-string. -/
def statusRepr : Option String → String
  | none => "None"
  | some s => s

/-- Membership in the terminal status set
`{JOB_STATUS.FINISHED, JOB_STATUS.ERROR, JOB_STATUS.CANCELED}`. -/
def isTerminal (s : String) : Bool :=
  s = JOB_STATUS_FINISHED || s = JOB_STATUS_ERROR || s = JOB_STATUS_CANCELED

/-- An elastic-registry `set_status` call site, wrapped in
`ElasticJobRegistry.just_log_errors(ctx)`: no events if no elastic registry
is configured; otherwise the attempted write, plus a swallowed-and-logged
failure when `set_status` raises. -/
def elasticMirror (env : JobEnv) (ctx job_id status : String)
    (started finished : Option String) : List Event :=
  if env.elastic_registry then
    match env.elastic_error with
    | none => [.ejrSetStatus job_id status started finished]
    | some e => [.ejrSetStatus job_id status started finished, .ejrSwallowed ctx e]
  else []

/-- The `if job_metadata.status in {...}` finalize block of
`_sync_job_status`: returns the emitted events and `some e` when one of
the steps raised `e` (aborting the rest of the sync). -/
def finalizeBlock (env : JobEnv) (ji : JobInfo) (md : JobMetadata) :
    List Event × Option String :=
  let evs0 : List Event :=
    [.statIncr ("reached final status " ++ md.status),
     .getResultsMeta ji.job_id ji.user_id]
  match env.results_metadata with
  | .error e => (evs0, some e)
  | .ok rm =>
    let evs1 := evs0 ++ [.zkPatchResultsMeta ji.job_id ji.user_id rm]
    match env.patch_results_error with
    | some e => (evs1, some e)
    | none =>
      let evs2 := evs1 ++ [.zkRemoveDependencies ji.job_id ji.user_id]
      match env.remove_dependencies_error with
      | some e => (evs2, some e)
      | none =>
        let dependency_sources := ji.dependency_sources.eraseDups
        let evs3 := evs2 ++
          (if dependency_sources.isEmpty then []
           else [.scheduleDeleteDependencySources ji.job_id ji.user_id dependency_sources])
        match (if dependency_sources.isEmpty then none else env.schedule_delete_error) with
        | some e => (evs3, some e)
        | none =>
          let billed := rm.sentinelhub_value.getD 0 + ji.dependency_usage.getD 0
          (evs3 ++ [.logMarkedDone ji.job_id billed], none)

/-- Model of `JobTracker._sync_job_status` for one job: the trace of
effects and `.error e` when an exception `e` escapes to the caller. -/
def sync_job_status (env : JobEnv) (ji : JobInfo) : List Event × Except String Unit :=
  let pre : List Event :=
    [.syncStart ji.job_id ji.user_id,
     .statIncr ("job with previous_status=" ++ statusRepr ji.status),
     .statIncr "get metadata attempt"]
  match env.meta with
  | .appNotFound =>
    (pre ++ [.zkSetStatus ji.job_id ji.user_id JOB_STATUS_ERROR]
        ++ elasticMirror env "job_tracker app not found" ji.job_id JOB_STATUS_ERROR none none
        ++ [.statIncr "app not found"],
     .ok ())
  | .exn e => (pre, .error e)
  | .ok md =>
    let changeStats : List Event :=
      if ji.status = some md.status then
        [.statIncr "status same", .statIncr ("status same " ++ md.status)]
      else
        [.statIncr "status change",
         .statIncr ("status change " ++ statusRepr ji.status ++ " to " ++ md.status)]
    let base := pre ++ [.statIncr "new metadata"] ++ changeStats
    let fin := if isTerminal md.status then finalizeBlock env ji md else ([], none)
    match fin with
    | (evs, some e) => (base ++ evs, .error e)
    | (evs, none) =>
      (base ++ evs
        ++ [.zkPatchStatus ji.job_id ji.user_id md.status md.start_time md.finish_time
              md.usage]
        ++ elasticMirror env ("job_tracker job_metadata.status=" ++ md.status)
             ji.job_id md.status md.start_time md.finish_time,
       .ok ())

/-- The per-record loop body of `update_statuses`, folded over the list of
job records (each paired with its external-world behaviour). -/
def runJobs (fail_fast : Bool) : List (JobRecord × JobEnv) → List Event × Except String Unit
  | [] => ([], .ok ())
  | (rec, env) :: rest =>
    match rec with
    | .notDict =>
      let r := runJobs fail_fast rest
      (.statIncr "invalid job_info" :: r.1, r.2)
    | .dict ji =>
      if ji.job_id = "" then
        let r := runJobs fail_fast rest
        (.statIncr "invalid job_info" :: r.1, r.2)
      else if ji.user_id = "" then
        let r := runJobs fail_fast rest
        (.statIncr "invalid job_info" :: r.1, r.2)
      else if ji.application_id = "" then
        let r := runJobs fail_fast rest
        (.statIncr ("skip due to no application_id status=" ++ statusRepr ji.status)
           :: r.1, r.2)
      else
        let s := sync_job_status env ji
        match s.2 with
        | .ok _ =>
          let r := runJobs fail_fast rest
          (s.1 ++ r.1, r.2)
        | .error e =>
          if fail_fast then (s.1 ++ [.statIncr "failed sync"], .error e)
          else
            let r := runJobs fail_fast rest
            (s.1 ++ [.statIncr "failed sync"] ++ r.1, r.2)

/-- Model of `JobTracker.update_statuses`. -/
def update_statuses (fail_fast : Bool) (jobs : List (JobRecord × JobEnv)) :
    List Event × Except String Unit :=
  let r := runJobs fail_fast jobs
  (.statSet "collected jobs" jobs.length :: r.1, r.2)

/-! ## Helper classifiers over traces -/

/-- Project the sync attempts (calls into `_sync_job_status`) out of a trace. -/
def syncAttempt : Event → Option (String × String)
  | .syncStart j u => some (j, u)
  | _ => none

/-- A record that reaches `_sync_job_status`: a dict with truthy
`job_id`, `user_id` and `application_id`. -/
def validTrackedRecord : JobRecord → Bool
  | .notDict => false
  | .dict ji => !(ji.job_id = "") && !(ji.user_id = "") && !(ji.application_id = "")

/-- The identifying pair of a record. -/
def recordIds : JobRecord → String × String
  | .notDict => ("", "")
  | .dict ji => (ji.job_id, ji.user_id)

theorem elasticMirror_filterMap_syncAttempt (env : JobEnv) (ctx j st : String)
    (a b : Option String) :
    (elasticMirror env ctx j st a b).filterMap syncAttempt = [] := by
  unfold elasticMirror
  cases env.elastic_registry with
  | false => simp
  | true => cases env.elastic_error <;> simp [syncAttempt]

theorem finalizeBlock_filterMap_syncAttempt (env : JobEnv) (ji : JobInfo)
    (md : JobMetadata) :
    ((finalizeBlock env ji md).1).filterMap syncAttempt = [] := by
  unfold finalizeBlock
  cases env.results_metadata with
  | error e => simp [syncAttempt]
  | ok rm =>
    cases env.patch_results_error with
    | some e => simp [syncAttempt]
    | none =>
      cases env.remove_dependencies_error with
      | some e => simp [syncAttempt]
      | none =>
        by_cases hd : ji.dependency_sources.eraseDups.isEmpty
        · simp [hd, syncAttempt]
        · cases hs : env.schedule_delete_error <;> simp [hd, hs, syncAttempt]

theorem sync_filterMap_syncAttempt (env : JobEnv) (ji : JobInfo) :
    (sync_job_status env ji).1.filterMap syncAttempt = [(ji.job_id, ji.user_id)] := by
  unfold sync_job_status
  cases env.meta with
  | appNotFound =>
    simp [syncAttempt, elasticMirror_filterMap_syncAttempt]
  | exn e => simp [syncAttempt]
  | ok md =>
    by_cases hc : ji.status = some md.status <;>
    · by_cases ht : isTerminal md.status
      · rcases hf : finalizeBlock env ji md with ⟨evs, oe⟩
        have hevs : evs.filterMap syncAttempt = [] := by
          have := finalizeBlock_filterMap_syncAttempt env ji md
          rw [hf] at this
          exact this
        cases oe <;>
          simp [hc, ht, hf, hevs, syncAttempt, elasticMirror_filterMap_syncAttempt]
      · simp [hc, ht, syncAttempt, elasticMirror_filterMap_syncAttempt]

theorem runJobs_no_fail_fast (jobs : List (JobRecord × JobEnv)) :
    (runJobs false jobs).2 = .ok () ∧
    (runJobs false jobs).1.filterMap syncAttempt
      = (jobs.filter (fun p => validTrackedRecord p.1)).map (fun p => recordIds p.1) := by
  induction jobs with
  | nil => simp [runJobs]
  | cons p rest ih =>
    obtain ⟨rec, env⟩ := p
    cases rec with
    | notDict => simpa [runJobs, validTrackedRecord, syncAttempt] using ih
    | dict ji =>
      by_cases h1 : ji.job_id = ""
      · simpa [runJobs, h1, validTrackedRecord, syncAttempt] using ih
      · by_cases h2 : ji.user_id = ""
        · simpa [runJobs, h1, h2, validTrackedRecord, syncAttempt] using ih
        · by_cases h3 : ji.application_id = ""
          · simpa [runJobs, h1, h2, h3, validTrackedRecord, syncAttempt] using ih
          · cases hs : (sync_job_status env ji).2 with
            | ok u =>
              refine ⟨?_, ?_⟩
              · simpa [runJobs, h1, h2, h3, hs] using ih.1
              · simp [runJobs, h1, h2, h3, hs, validTrackedRecord, recordIds,
                  sync_filterMap_syncAttempt, syncAttempt, ih.2]
            | error e =>
              refine ⟨?_, ?_⟩
              · simpa [runJobs, h1, h2, h3, hs] using ih.1
              · simp [runJobs, h1, h2, h3, hs, validTrackedRecord, recordIds,
                  sync_filterMap_syncAttempt, syncAttempt, ih.2]

/-- C1: with `fail_fast=False`, `update_statuses` raises nothing and
attempts the status sync of exactly the valid records (dicts with
non-empty `job_id`, `user_id` and `application_id`), once each, in
enumeration order, whatever each record's external environment does
(including earlier syncs raising exceptions). -/
theorem update_statuses_attempts_every_valid_record_once
    (jobs : List (JobRecord × JobEnv)) :
    (update_statuses false jobs).2 = .ok () ∧
    (update_statuses false jobs).1.filterMap syncAttempt
      = (jobs.filter (fun p => validTrackedRecord p.1)).map (fun p => recordIds p.1) := by
  have h := runJobs_no_fail_fast jobs
  unfold update_statuses
  exact ⟨h.1, by simp [syncAttempt, h.2]⟩

/-! ## C2: the AppNotFound branch -/

/-- C2: when `get_job_metadata` raises `AppNotFound`, `_sync_job_status`
sets the job's status to ERROR in the primary (ZooKeeper) registry,
attempts the best-effort secondary write (whose failure is swallowed),
increments the "app not found" counter, performs no finalize side effect
and no `{status, start_time, finish_time, usage}` patch, returns
normally, and no exception escapes the pass even with `fail_fast=True`. -/
theorem sync_app_not_found_sets_error_and_returns (env : JobEnv) (ji : JobInfo)
    (h : env.meta = .appNotFound)
    (h1 : ji.job_id ≠ "") (h2 : ji.user_id ≠ "") (h3 : ji.application_id ≠ "") :
    (sync_job_status env ji).2 = .ok () ∧
    (∀ ff : Bool, (runJobs ff [(.dict ji, env)]).2 = .ok ()) ∧
    Event.zkSetStatus ji.job_id ji.user_id JOB_STATUS_ERROR ∈ (sync_job_status env ji).1 ∧
    Event.statIncr "app not found" ∈ (sync_job_status env ji).1 ∧
    (env.elastic_registry = true →
      Event.ejrSetStatus ji.job_id JOB_STATUS_ERROR none none ∈ (sync_job_status env ji).1) ∧
    (∀ e, env.elastic_error = some e → env.elastic_registry = true →
      Event.ejrSwallowed "job_tracker app not found" e ∈ (sync_job_status env ji).1) ∧
    (∀ j u, Event.getResultsMeta j u ∉ (sync_job_status env ji).1) ∧
    (∀ j u rm, Event.zkPatchResultsMeta j u rm ∉ (sync_job_status env ji).1) ∧
    (∀ j u, Event.zkRemoveDependencies j u ∉ (sync_job_status env ji).1) ∧
    (∀ j u srcs, Event.scheduleDeleteDependencySources j u srcs ∉ (sync_job_status env ji).1) ∧
    (∀ j q, Event.logMarkedDone j q ∉ (sync_job_status env ji).1) ∧
    (∀ j u st a b us, Event.zkPatchStatus j u st a b us ∉ (sync_job_status env ji).1) := by
  have hok : (sync_job_status env ji).2 = .ok () := by
    unfold sync_job_status
    simp [h]
  refine ⟨hok, ?_, ?_⟩
  · intro ff
    simp [runJobs, h1, h2, h3, hok]
  · unfold sync_job_status elasticMirror
    cases henv : env.elastic_registry with
    | false => simp [h, henv]
    | true =>
      cases he : env.elastic_error with
      | none => simp [h, henv, he]
      | some e => simp [h, henv, he]

/-! ## C10: a finalize failure prevents the unconditional status patch -/

theorem finalizeBlock_no_zkPatchStatus (env : JobEnv) (ji : JobInfo) (md : JobMetadata)
    (j u st : String) (a b : Option String) (us : Option UsageMap) :
    Event.zkPatchStatus j u st a b us ∉ (finalizeBlock env ji md).1 := by
  unfold finalizeBlock
  cases env.results_metadata with
  | error e => simp
  | ok rm =>
    cases env.patch_results_error with
    | some e => simp
    | none =>
      cases env.remove_dependencies_error with
      | some e => simp
      | none =>
        by_cases hd : ji.dependency_sources.eraseDups.isEmpty
        · simp [hd]
        · cases hs : env.schedule_delete_error <;> simp [hd, hs]

theorem finalizeBlock_no_zkSetStatus (env : JobEnv) (ji : JobInfo) (md : JobMetadata)
    (j u st : String) :
    Event.zkSetStatus j u st ∉ (finalizeBlock env ji md).1 := by
  unfold finalizeBlock
  cases env.results_metadata with
  | error e => simp
  | ok rm =>
    cases env.patch_results_error with
    | some e => simp
    | none =>
      cases env.remove_dependencies_error with
      | some e => simp
      | none =>
        by_cases hd : ji.dependency_sources.eraseDups.isEmpty
        · simp [hd]
        · cases hs : env.schedule_delete_error <;> simp [hd, hs]

/-- C10: when the freshly fetched status is terminal but some finalize
step (results-metadata fetch, results patch, dependency removal, cleanup
scheduling) raises, `_sync_job_status` raises and the unconditional
`{status, start_time, finish_time, usage}` patch is never performed, nor
any other status write for that job in that pass. -/
theorem sync_error_skips_final_patch (env : JobEnv) (ji : JobInfo) (md : JobMetadata)
    (e : String) (hm : env.meta = .ok md) (ht : isTerminal md.status = true)
    (he : (sync_job_status env ji).2 = .error e) :
    (∀ j u st a b us, Event.zkPatchStatus j u st a b us ∉ (sync_job_status env ji).1) ∧
    (∀ j u st, Event.zkSetStatus j u st ∉ (sync_job_status env ji).1) := by
  rcases hf : finalizeBlock env ji md with ⟨evs, oe⟩
  have hnp : ∀ j u st a b us, Event.zkPatchStatus j u st a b us ∉ evs := by
    intro j u st a b us
    have hx := finalizeBlock_no_zkPatchStatus env ji md j u st a b us
    rw [hf] at hx
    exact hx
  have hns : ∀ j u st, Event.zkSetStatus j u st ∉ evs := by
    intro j u st
    have hx := finalizeBlock_no_zkSetStatus env ji md j u st
    rw [hf] at hx
    exact hx
  cases oe with
  | none =>
    exfalso
    unfold sync_job_status at he
    by_cases hc : ji.status = some md.status <;> simp [hm, ht, hf, hc] at he
  | some e0 =>
    unfold sync_job_status
    by_cases hc : ji.status = some md.status <;>
      simp [hm, ht, hf, hc, hnp, hns]

/-- A concrete job record for the AppNotFound witness. -/
def jiApp : JobInfo := ⟨"job-a", "user-a", "app-a", some "running", none, [], none⟩

/-- A concrete environment whose status getter raises AppNotFound and
whose elastic registry write also fails. -/
def envApp : JobEnv := ⟨.appNotFound, .error "unused", none, none, none, true, some "ejr down"⟩

theorem sync_app_not_found_sets_error_and_returns_witness :
    (sync_job_status envApp jiApp).2 = .ok () ∧
    Event.zkSetStatus "job-a" "user-a" JOB_STATUS_ERROR ∈ (sync_job_status envApp jiApp).1 ∧
    Event.ejrSwallowed "job_tracker app not found" "ejr down" ∈ (sync_job_status envApp jiApp).1 := by
  have h := sync_app_not_found_sets_error_and_returns envApp jiApp rfl
    (by decide) (by decide) (by decide)
  exact ⟨h.1, h.2.2.1, h.2.2.2.2.2.1 "ejr down" rfl rfl⟩

/-- A concrete job record for the finalize-failure witness. -/
def jiFin : JobInfo := ⟨"job-f", "user-f", "app-f", some "running", none, ["s1"], none⟩

/-- A concrete environment: terminal FINISHED status, but the
results-metadata fetch raises. -/
def envFin : JobEnv :=
  ⟨.ok ⟨"finished", some "2024-01-01T00:00:00Z", some "2024-01-01T01:00:00Z", none⟩,
   .error "results boom", none, none, none, true, none⟩

theorem sync_error_skips_final_patch_witness :
    Event.zkPatchStatus "job-f" "user-f" "finished" (some "2024-01-01T00:00:00Z")
      (some "2024-01-01T01:00:00Z") none ∉ (sync_job_status envFin jiFin).1 := by
  exact (sync_error_skips_final_patch envFin jiFin
    ⟨"finished", some "2024-01-01T00:00:00Z", some "2024-01-01T01:00:00Z", none⟩
    "results boom" rfl (by decide) rfl).1 "job-f" "user-f" "finished"
    (some "2024-01-01T00:00:00Z") (some "2024-01-01T01:00:00Z") none

/-! ## C4: fail_fast aborts the rest of the pass -/

/-- The trace contributed by one record of the loop (independent of what
comes after it). -/
def stepTrace (p : JobRecord × JobEnv) : List Event :=
  match p with
  | (.notDict, _) => [.statIncr "invalid job_info"]
  | (.dict ji, env) =>
    if ji.job_id = "" then [.statIncr "invalid job_info"]
    else if ji.user_id = "" then [.statIncr "invalid job_info"]
    else if ji.application_id = "" then
      [.statIncr ("skip due to no application_id status=" ++ statusRepr ji.status)]
    else
      match (sync_job_status env ji).2 with
      | .ok _ => (sync_job_status env ji).1
      | .error _ => (sync_job_status env ji).1 ++ [.statIncr "failed sync"]

/-- Whether one record aborts a `fail_fast=True` pass (and with which
exception). -/
def stepAbort (p : JobRecord × JobEnv) : Option String :=
  match p with
  | (.notDict, _) => none
  | (.dict ji, env) =>
    if ji.job_id = "" then none
    else if ji.user_id = "" then none
    else if ji.application_id = "" then none
    else
      match (sync_job_status env ji).2 with
      | .ok _ => none
      | .error e => some e

theorem runJobs_true_cons (p : JobRecord × JobEnv) (rest : List (JobRecord × JobEnv)) :
    runJobs true (p :: rest) =
      match stepAbort p with
      | some e => (stepTrace p, .error e)
      | none => (stepTrace p ++ (runJobs true rest).1, (runJobs true rest).2) := by
  obtain ⟨rec, env⟩ := p
  cases rec with
  | notDict => simp [runJobs, stepTrace, stepAbort]
  | dict ji0 =>
    by_cases g1 : ji0.job_id = ""
    · simp [runJobs, stepTrace, stepAbort, g1]
    · by_cases g2 : ji0.user_id = ""
      · simp [runJobs, stepTrace, stepAbort, g1, g2]
      · by_cases g3 : ji0.application_id = ""
        · simp [runJobs, stepTrace, stepAbort, g1, g2, g3]
        · cases hs : (sync_job_status env ji0).2 with
          | ok u => simp [runJobs, stepTrace, stepAbort, g1, g2, g3, hs]
          | error e0 => simp [runJobs, stepTrace, stepAbort, g1, g2, g3, hs]

theorem runJobs_true_abort (pre post : List (JobRecord × JobEnv)) (ji : JobInfo)
    (env : JobEnv) (e : String)
    (hpre : (runJobs true pre).2 = .ok ())
    (h1 : ji.job_id ≠ "") (h2 : ji.user_id ≠ "") (h3 : ji.application_id ≠ "")
    (hfail : (sync_job_status env ji).2 = .error e) :
    runJobs true (pre ++ (.dict ji, env) :: post)
      = ((runJobs true pre).1 ++ ((sync_job_status env ji).1 ++ [.statIncr "failed sync"]),
         .error e) := by
  induction pre with
  | nil => simp [runJobs, h1, h2, h3, hfail]
  | cons p ps ih =>
    cases ha : stepAbort p with
    | some e0 =>
      exfalso
      rw [runJobs_true_cons, ha] at hpre
      simp at hpre
    | none =>
      have hps : (runJobs true ps).2 = .ok () := by
        rw [runJobs_true_cons, ha] at hpre
        simpa using hpre
      have hrec := ih hps
      rw [List.cons_append, runJobs_true_cons, ha, hrec, runJobs_true_cons, ha]
      simp

/-- C4: with `fail_fast=True`, when the sync of one (valid) record raises
an exception, `update_statuses` re-raises it and the whole pass trace is
exactly the prefix processed so far plus that record's events and the
"failed sync" counter bump — records after it in enumeration order get no
processing and no registry writes at all. -/
theorem update_statuses_fail_fast_aborts_rest (pre post : List (JobRecord × JobEnv))
    (ji : JobInfo) (env : JobEnv) (e : String)
    (hpre : (runJobs true pre).2 = .ok ())
    (h1 : ji.job_id ≠ "") (h2 : ji.user_id ≠ "") (h3 : ji.application_id ≠ "")
    (hfail : (sync_job_status env ji).2 = .error e) :
    update_statuses true (pre ++ (.dict ji, env) :: post)
      = (.statSet "collected jobs" (pre ++ (.dict ji, env) :: post).length
          :: ((runJobs true pre).1 ++ ((sync_job_status env ji).1 ++ [.statIncr "failed sync"])),
         .error e) := by
  unfold update_statuses
  rw [runJobs_true_abort pre post ji env e hpre h1 h2 h3 hfail]

/-- A concrete failing record for the fail-fast witness. -/
def jiFf : JobInfo := ⟨"job-c", "user-c", "app-c", some "running", none, [], none⟩

/-- A concrete environment whose status query raises a parse error. -/
def envFf : JobEnv := ⟨.exn "YarnAppReportParseException", .error "unused", none, none,
  none, false, none⟩

/-- An untouched record placed after the failing one. -/
def jiPost : JobInfo := ⟨"job-d", "user-d", "app-d", some "queued", none, [], none⟩

theorem update_statuses_fail_fast_aborts_rest_witness :
    update_statuses true [(.dict jiFf, envFf), (.dict jiPost, envFf)]
      = (.statSet "collected jobs" 2
          :: ((sync_job_status envFf jiFf).1 ++ [.statIncr "failed sync"]),
         .error "YarnAppReportParseException") := by
  have h := update_statuses_fail_fast_aborts_rest [] [(.dict jiPost, envFf)] jiFf envFf
    "YarnAppReportParseException" rfl (by decide) (by decide) (by decide) rfl
  simpa [runJobs] using h

/-! ## C3: the finalize effects on reaching a terminal status -/

theorem finalizeBlock_success_trace (env : JobEnv) (ji : JobInfo) (md : JobMetadata)
    (rm : ResultMeta) (hr : env.results_metadata = .ok rm)
    (hp : env.patch_results_error = none) (hd : env.remove_dependencies_error = none)
    (hs : env.schedule_delete_error = none) :
    finalizeBlock env ji md =
      ([.statIncr ("reached final status " ++ md.status),
        .getResultsMeta ji.job_id ji.user_id,
        .zkPatchResultsMeta ji.job_id ji.user_id rm,
        .zkRemoveDependencies ji.job_id ji.user_id]
        ++ (if ji.dependency_sources.eraseDups.isEmpty then []
            else [.scheduleDeleteDependencySources ji.job_id ji.user_id
                    ji.dependency_sources.eraseDups])
        ++ [.logMarkedDone ji.job_id
              (rm.sentinelhub_value.getD 0 + ji.dependency_usage.getD 0)],
       none) := by
  unfold finalizeBlock
  rw [hr, hp, hd]
  by_cases hde : ji.dependency_sources.eraseDups.isEmpty
  · simp [hde]
  · simp [hde, hs]

theorem sync_terminal_success_trace (env : JobEnv) (ji : JobInfo) (md : JobMetadata)
    (rm : ResultMeta) (hm : env.meta = .ok md) (ht : isTerminal md.status = true)
    (hr : env.results_metadata = .ok rm)
    (hp : env.patch_results_error = none) (hd : env.remove_dependencies_error = none)
    (hs : env.schedule_delete_error = none) :
    sync_job_status env ji =
      ([.syncStart ji.job_id ji.user_id,
        .statIncr ("job with previous_status=" ++ statusRepr ji.status),
        .statIncr "get metadata attempt", .statIncr "new metadata"]
        ++ (if ji.status = some md.status then
              [.statIncr "status same", .statIncr ("status same " ++ md.status)]
            else [.statIncr "status change",
                  .statIncr ("status change " ++ statusRepr ji.status ++ " to " ++ md.status)])
        ++ (([.statIncr ("reached final status " ++ md.status),
              .getResultsMeta ji.job_id ji.user_id,
              .zkPatchResultsMeta ji.job_id ji.user_id rm,
              .zkRemoveDependencies ji.job_id ji.user_id]
             ++ (if ji.dependency_sources.eraseDups.isEmpty then []
                 else [.scheduleDeleteDependencySources ji.job_id ji.user_id
                         ji.dependency_sources.eraseDups])
             ++ [.logMarkedDone ji.job_id
                   (rm.sentinelhub_value.getD 0 + ji.dependency_usage.getD 0)])
          ++ ([.zkPatchStatus ji.job_id ji.user_id md.status md.start_time md.finish_time
                 md.usage]
          ++ elasticMirror env ("job_tracker job_metadata.status=" ++ md.status)
               ji.job_id md.status md.start_time md.finish_time)),
       .ok ()) := by
  have hfb := finalizeBlock_success_trace env ji md rm hr hp hd hs
  unfold sync_job_status
  by_cases hc : ji.status = some md.status <;> simp [hm, ht, hfb, hc]

/-- C3: when the freshly fetched status is terminal and the finalize
collaborators succeed, `_sync_job_status` fetches the result metadata and
patches it into the primary registry, removes the job's dependencies,
schedules deletion of the deduplicated dependency sources exactly when
that deduplicated list is non-empty, logs a total billed usage equal to
the result metadata's sentinelhub value (default 0) plus the job's
dependency usage (default 0), and afterwards patches
`{status, start_time, finish_time, usage}` into the primary registry. -/
theorem sync_terminal_finalize_effects (env : JobEnv) (ji : JobInfo) (md : JobMetadata)
    (rm : ResultMeta) (hm : env.meta = .ok md) (ht : isTerminal md.status = true)
    (hr : env.results_metadata = .ok rm)
    (hp : env.patch_results_error = none) (hd : env.remove_dependencies_error = none)
    (hs : env.schedule_delete_error = none) :
    (sync_job_status env ji).2 = .ok () ∧
    Event.getResultsMeta ji.job_id ji.user_id ∈ (sync_job_status env ji).1 ∧
    Event.zkPatchResultsMeta ji.job_id ji.user_id rm ∈ (sync_job_status env ji).1 ∧
    Event.zkRemoveDependencies ji.job_id ji.user_id ∈ (sync_job_status env ji).1 ∧
    ((Event.scheduleDeleteDependencySources ji.job_id ji.user_id
        ji.dependency_sources.eraseDups ∈ (sync_job_status env ji).1)
      ↔ ¬ ji.dependency_sources.eraseDups.isEmpty) ∧
    Event.logMarkedDone ji.job_id
        (rm.sentinelhub_value.getD 0 + ji.dependency_usage.getD 0)
      ∈ (sync_job_status env ji).1 ∧
    (∃ l1, (sync_job_status env ji).1
        = l1 ++ [Event.zkPatchStatus ji.job_id ji.user_id md.status md.start_time
                   md.finish_time md.usage]
          ++ elasticMirror env ("job_tracker job_metadata.status=" ++ md.status)
               ji.job_id md.status md.start_time md.finish_time
        ∧ Event.logMarkedDone ji.job_id
            (rm.sentinelhub_value.getD 0 + ji.dependency_usage.getD 0) ∈ l1) := by
  have heq := sync_terminal_success_trace env ji md rm hm ht hr hp hd hs
  have hmir : ∀ (env1 : JobEnv) (ctx j0 st : String) (a b : Option String)
      (j u : String) (srcs : List String),
      Event.scheduleDeleteDependencySources j u srcs ∉ elasticMirror env1 ctx j0 st a b := by
    intro env1 ctx j0 st a b j u srcs
    unfold elasticMirror
    cases env1.elastic_registry with
    | false => simp
    | true => cases env1.elastic_error <;> simp
  refine ⟨by rw [heq], ?_, ?_, ?_, ?_, ?_, ?_⟩
  · rw [heq]; simp
  · rw [heq]; simp
  · rw [heq]; simp
  · by_cases hde : ji.dependency_sources.eraseDups.isEmpty <;>
      by_cases hc : ji.status = some md.status <;>
      simp [heq, hde, hc, hmir]
  · rw [heq]; simp
  · refine ⟨([Event.syncStart ji.job_id ji.user_id,
        Event.statIncr ("job with previous_status=" ++ statusRepr ji.status),
        Event.statIncr "get metadata attempt", Event.statIncr "new metadata"]
        ++ (if ji.status = some md.status then
              [Event.statIncr "status same", Event.statIncr ("status same " ++ md.status)]
            else [Event.statIncr "status change",
                  Event.statIncr ("status change " ++ statusRepr ji.status ++ " to "
                    ++ md.status)])
        ++ ([Event.statIncr ("reached final status " ++ md.status),
             Event.getResultsMeta ji.job_id ji.user_id,
             Event.zkPatchResultsMeta ji.job_id ji.user_id rm,
             Event.zkRemoveDependencies ji.job_id ji.user_id]
            ++ (if ji.dependency_sources.eraseDups.isEmpty then []
                else [Event.scheduleDeleteDependencySources ji.job_id ji.user_id
                        ji.dependency_sources.eraseDups])
            ++ [Event.logMarkedDone ji.job_id
                  (rm.sentinelhub_value.getD 0 + ji.dependency_usage.getD 0)])), ?_, ?_⟩
    · rw [heq]; simp [List.append_assoc]
    · simp

/-- A concrete job record with duplicate dependency sources and a
pre-accrued dependency usage of 2. -/
def jiT : JobInfo :=
  ⟨"job-t", "user-t", "app-t", some "running", none, ["dep1", "dep1", "dep2"], some 2⟩

/-- Concrete result metadata with a sentinelhub usage value of 3. -/
def rmT : ResultMeta := ⟨some 3, some "area-t", ["proc1"]⟩

/-- A concrete environment reporting a terminal FINISHED status with all
finalize collaborators succeeding. -/
def envT : JobEnv :=
  ⟨.ok ⟨"finished", some "2024-05-05T00:00:00Z", some "2024-05-05T01:00:00Z", none⟩,
   .ok rmT, none, none, none, false, none⟩

theorem sync_terminal_finalize_effects_witness :
    Event.logMarkedDone "job-t" 5 ∈ (sync_job_status envT jiT).1 ∧
    Event.scheduleDeleteDependencySources "job-t" "user-t" ["dep1", "dep2"]
      ∈ (sync_job_status envT jiT).1 ∧
    (sync_job_status envT jiT).2 = .ok () := by
  have h := sync_terminal_finalize_effects envT jiT
    ⟨"finished", some "2024-05-05T00:00:00Z", some "2024-05-05T01:00:00Z", none⟩ rmT
    rfl (by decide) rfl rfl rfl rfl
  refine ⟨?_, ?_, h.1⟩
  · have h6 := h.2.2.2.2.2.1
    have hv : (rmT.sentinelhub_value.getD 0 + jiT.dependency_usage.getD 0 : ℚ) = 5 := by
      norm_num [rmT, jiT]
    rw [hv] at h6
    exact h6
  · have h5 := h.2.2.2.2.1.mpr (by decide)
    have hv : jiT.dependency_sources.eraseDups = ["dep1", "dep2"] := by decide
    rw [hv] at h5
    exact h5

/-! ## C8: secondary-registry write failures are swallowed -/

/-- Replace only the elastic-registry failure behaviour of an environment. -/
def withElasticError (env : JobEnv) (o : Option String) : JobEnv :=
  ⟨env.meta, env.results_metadata, env.patch_results_error, env.remove_dependencies_error,
   env.schedule_delete_error, env.elastic_registry, o⟩

/-- Recognise the swallowed-elastic-failure log events. -/
def isEjrSwallowed : Event → Bool
  | .ejrSwallowed _ _ => true
  | _ => false

/-- Recognise the "failed sync" pass-failure counter bumps. -/
def isFailedSyncStat : Event → Bool
  | .statIncr k => k = "failed sync"
  | _ => false

theorem elasticMirror_filter_swallowed (env : JobEnv) (o : Option String)
    (ctx j st : String) (a b : Option String) :
    (elasticMirror (withElasticError env o) ctx j st a b).filter
        (fun e => !(isEjrSwallowed e))
      = (elasticMirror (withElasticError env none) ctx j st a b).filter
          (fun e => !(isEjrSwallowed e)) := by
  unfold elasticMirror withElasticError
  cases henv : env.elastic_registry with
  | false => simp
  | true => cases o <;> simp [isEjrSwallowed]

theorem sync_withElasticError_parts (env : JobEnv) (ji : JobInfo) (o : Option String) :
    (sync_job_status (withElasticError env o) ji).2
      = (sync_job_status (withElasticError env none) ji).2 ∧
    (sync_job_status (withElasticError env o) ji).1.filter (fun e => !(isEjrSwallowed e))
      = (sync_job_status (withElasticError env none) ji).1.filter
          (fun e => !(isEjrSwallowed e)) := by
  have hfb : finalizeBlock (withElasticError env o) ji
      = finalizeBlock (withElasticError env none) ji := rfl
  unfold sync_job_status
  cases hm : env.meta with
  | appNotFound =>
    have hme : (withElasticError env o).meta = MetaResult.appNotFound := hm
    have hme2 : (withElasticError env none).meta = MetaResult.appNotFound := hm
    simp [hme, hme2, isEjrSwallowed, List.filter_append]
    exact elasticMirror_filter_swallowed env o "job_tracker app not found" ji.job_id
      JOB_STATUS_ERROR none none
  | exn e =>
    have hme : (withElasticError env o).meta = MetaResult.exn e := hm
    have hme2 : (withElasticError env none).meta = MetaResult.exn e := hm
    simp [hme, hme2]
  | ok md =>
    have hme : (withElasticError env o).meta = MetaResult.ok md := hm
    have hme2 : (withElasticError env none).meta = MetaResult.ok md := hm
    by_cases ht : isTerminal md.status
    · rcases hf : finalizeBlock (withElasticError env none) ji md with ⟨evs, oe⟩
      have hf2 : finalizeBlock (withElasticError env o) ji md = (evs, oe) := by
        rw [hfb]; exact hf
      cases oe with
      | some e0 =>
        simp [hme, hme2, ht, hf, hf2]
      | none =>
        simp [hme, hme2, ht, hf, hf2, isEjrSwallowed, List.filter_append]
        exact elasticMirror_filter_swallowed env o
          ("job_tracker job_metadata.status=" ++ md.status) ji.job_id md.status
          md.start_time md.finish_time
    · simp [hme, hme2, ht, isEjrSwallowed, List.filter_append]
      exact elasticMirror_filter_swallowed env o
        ("job_tracker job_metadata.status=" ++ md.status) ji.job_id md.status
        md.start_time md.finish_time

/-- C8: an exception raised by the secondary (elastic) registry's
`set_status` is caught at both call sites: it never changes the outcome
of `_sync_job_status` (never propagates), the trace is unchanged except
for the swallowed-and-logged failure events, whenever the sync completes
with an elastic registry configured the failure has been logged, and at
the pass level neither the outcome nor the "failed sync" counter is
affected. -/
theorem elastic_set_status_failure_swallowed (env : JobEnv) (ji : JobInfo) (m : String) :
    (sync_job_status (withElasticError env (some m)) ji).2
      = (sync_job_status (withElasticError env none) ji).2 ∧
    (sync_job_status (withElasticError env (some m)) ji).1.filter
        (fun e => !(isEjrSwallowed e))
      = (sync_job_status (withElasticError env none) ji).1.filter
          (fun e => !(isEjrSwallowed e)) ∧
    (env.elastic_registry = true →
      (sync_job_status (withElasticError env (some m)) ji).2 = .ok () →
      ∃ ctx, Event.ejrSwallowed ctx m ∈ (sync_job_status (withElasticError env (some m)) ji).1) ∧
    (∀ ff, (runJobs ff [(.dict ji, withElasticError env (some m))]).2
        = (runJobs ff [(.dict ji, withElasticError env none)]).2) ∧
    (∀ ff, ((runJobs ff [(.dict ji, withElasticError env (some m))]).1.countP isFailedSyncStat)
        = ((runJobs ff [(.dict ji, withElasticError env none)]).1.countP isFailedSyncStat)) := by
  have hparts := sync_withElasticError_parts env ji (some m)
  have hcount : ∀ (l1 l2 : List Event),
      l1.filter (fun e => !(isEjrSwallowed e)) = l2.filter (fun e => !(isEjrSwallowed e)) →
      l1.countP isFailedSyncStat = l2.countP isFailedSyncStat := by
    intro l1 l2 hfil
    have key : ∀ l : List Event,
        l.countP isFailedSyncStat
          = (l.filter (fun e => !(isEjrSwallowed e))).countP isFailedSyncStat := by
      intro l
      rw [List.countP_filter]
      apply List.countP_congr
      intro x _
      cases x <;> simp [isFailedSyncStat, isEjrSwallowed]
    rw [key l1, key l2, hfil]
  refine ⟨hparts.1, hparts.2, ?_, ?_, ?_⟩
  · intro hreg hok
    have hregm : (withElasticError env (some m)).elastic_registry = true := hreg
    have herr : (withElasticError env (some m)).elastic_error = some m := rfl
    unfold sync_job_status at hok ⊢
    cases hm : env.meta with
    | appNotFound =>
      have hme : (withElasticError env (some m)).meta = MetaResult.appNotFound := hm
      refine ⟨"job_tracker app not found", ?_⟩
      simp [hme, elasticMirror, hregm, herr]
    | exn e =>
      have hme : (withElasticError env (some m)).meta = MetaResult.exn e := hm
      rw [hme] at hok
      simp at hok
    | ok md =>
      have hme : (withElasticError env (some m)).meta = MetaResult.ok md := hm
      rw [hme] at hok ⊢
      by_cases ht : isTerminal md.status
      · rcases hf : finalizeBlock (withElasticError env (some m)) ji md with ⟨evs, oe⟩
        cases oe with
        | some e0 =>
          exfalso
          simp [ht, hf] at hok
        | none =>
          refine ⟨"job_tracker job_metadata.status=" ++ md.status, ?_⟩
          simp [ht, hf, elasticMirror, hregm, herr]
      · refine ⟨"job_tracker job_metadata.status=" ++ md.status, ?_⟩
        simp [ht, elasticMirror, hregm, herr]
  · intro ff
    by_cases g1 : ji.job_id = ""
    · simp [runJobs, g1]
    · by_cases g2 : ji.user_id = ""
      · simp [runJobs, g1, g2]
      · by_cases g3 : ji.application_id = ""
        · simp [runJobs, g1, g2, g3]
        · cases hs : (sync_job_status (withElasticError env none) ji).2 with
          | ok u =>
            have hs2 := hparts.1.trans hs
            simp [runJobs, g1, g2, g3, hs, hs2]
          | error e =>
            have hs2 := hparts.1.trans hs
            cases ff <;> simp [runJobs, g1, g2, g3, hs, hs2]
  · intro ff
    by_cases g1 : ji.job_id = ""
    · simp [runJobs, g1]
    · by_cases g2 : ji.user_id = ""
      · simp [runJobs, g1, g2]
      · by_cases g3 : ji.application_id = ""
        · simp [runJobs, g1, g2, g3]
        · have hc := hcount _ _ hparts.2
          cases hs : (sync_job_status (withElasticError env none) ji).2 with
          | ok u =>
            have hs2 := hparts.1.trans hs
            simp [runJobs, g1, g2, g3, hs, hs2, List.countP_append, hc]
          | error e =>
            have hs2 := hparts.1.trans hs
            cases ff <;>
              simp [runJobs, g1, g2, g3, hs, hs2, List.countP_append, hc]

/-- A concrete job record for the swallowed-elastic-failure witness. -/
def jiE : JobInfo := ⟨"job-e", "user-e", "app-e", some "running", none, [], none⟩

/-- A concrete environment with an elastic registry configured and a
non-terminal fresh status. -/
def envE : JobEnv :=
  ⟨.ok ⟨"running", some "2024-02-02T00:00:00Z", none, none⟩, .error "unused",
   none, none, none, true, none⟩

theorem elastic_set_status_failure_swallowed_witness :
    (sync_job_status (withElasticError envE (some "ejr boom")) jiE).2
      = (sync_job_status (withElasticError envE none) jiE).2 ∧
    (∃ ctx, Event.ejrSwallowed ctx "ejr boom"
        ∈ (sync_job_status (withElasticError envE (some "ejr boom")) jiE).1) := by
  have h := elastic_set_status_failure_swallowed envE jiE "ejr boom"
  exact ⟨h.1, h.2.2.1 rfl rfl⟩

/-! ## C7: epoch-zero timestamps are absent; non-zero become RFC3339 -/

theorem digitChar_facts : ∀ d, d < 10 →
    ((digitChar d).isDigit = true ∧ (digitChar d).toNat = 48 + d) := by decide

theorem twoDigits_digitChar (a b : Nat) (ha : a < 10) (hb : b < 10) :
    twoDigits (digitChar a) (digitChar b) = 10 * a + b := by
  have h1 := (digitChar_facts a ha).2
  have h2 := (digitChar_facts b hb).2
  unfold twoDigits
  omega

set_option maxHeartbeats 4000000 in
theorem doy_le (doe : Nat) (hdoe : doe < 146097) :
    doe - (365 * ((doe - doe / 1460 + doe / 36524 - doe / 146096) / 365)
      + ((doe - doe / 1460 + doe / 36524 - doe / 146096) / 365) / 4
      - ((doe - doe / 1460 + doe / 36524 - doe / 146096) / 365) / 100) ≤ 365 := by
  set yoe := (doe - doe / 1460 + doe / 36524 - doe / 146096) / 365 with hy
  have hyb : yoe ≤ 400 := by omega
  interval_cases yoe <;> omega

theorem civilFromDays_ranges (days : Nat) :
    1 ≤ (civilFromDays days).2.1 ∧ (civilFromDays days).2.1 ≤ 12 ∧
    1 ≤ (civilFromDays days).2.2 ∧ (civilFromDays days).2.2 ≤ 31 := by
  have hdoe : (days + 719468) % 146097 < 146097 := Nat.mod_lt _ (by norm_num)
  have hdoy := doy_le ((days + 719468) % 146097) hdoe
  unfold civilFromDays
  simp only
  generalize hg : (days + 719468) % 146097
      - (365 * (((days + 719468) % 146097 - (days + 719468) % 146097 / 1460
          + (days + 719468) % 146097 / 36524 - (days + 719468) % 146097 / 146096) / 365)
        + (((days + 719468) % 146097 - (days + 719468) % 146097 / 1460
          + (days + 719468) % 146097 / 36524 - (days + 719468) % 146097 / 146096) / 365) / 4
        - (((days + 719468) % 146097 - (days + 719468) % 146097 / 1460
          + (days + 719468) % 146097 / 36524 - (days + 719468) % 146097 / 146096) / 365) / 100)
      = doyv at hdoy ⊢
  by_cases hmp : (5 * doyv + 2) / 153 < 10
  · simp only [hmp, if_true]
    omega
  · simp only [hmp, if_false]
    omega

theorem isRfc3339Z_mk (y m d h mi s : Nat)
    (hm1 : 1 ≤ m) (hm2 : m ≤ 12) (hd1 : 1 ≤ d) (hd2 : d ≤ 31)
    (hh : h ≤ 23) (hmi : mi ≤ 59) (hs : s ≤ 59) :
    isRfc3339Z (String.mk (pad4 y ++ ['-'] ++ pad2 m ++ ['-'] ++ pad2 d
      ++ ['T'] ++ pad2 h ++ [':'] ++ pad2 mi ++ [':'] ++ pad2 s ++ ['Z'])) = true := by
  have hdig : ∀ x : Nat, (digitChar (x % 10)).isDigit = true :=
    fun x => (digitChar_facts (x % 10) (Nat.mod_lt _ (by norm_num))).1
  have htwo : ∀ x : Nat, twoDigits (digitChar (x / 10 % 10)) (digitChar (x % 10))
      = 10 * (x / 10 % 10) + x % 10 :=
    fun x => twoDigits_digitChar _ _ (Nat.mod_lt _ (by norm_num)) (Nat.mod_lt _ (by norm_num))
  unfold isRfc3339Z pad4 pad2
  simp only [List.cons_append, List.nil_append, String.toList, List.all_cons,
    List.all_nil, Bool.and_eq_true, decide_eq_true_eq, htwo, hdig]
  repeat' apply And.intro
  all_goals first
    | trivial
    | omega

theorem epochSecondsToRfc3339_shape (secs : Nat) :
    isRfc3339Z (epochSecondsToRfc3339 secs) = true := by
  have hciv := civilFromDays_ranges (secs / 86400)
  unfold epochSecondsToRfc3339
  simp only
  exact isRfc3339Z_mk _ _ _ _ _ _ hciv.1 hciv.2.1 hciv.2.2.1 hciv.2.2.2
    (by omega) (by omega) (by omega)

/-- C7: `_ms_epoch_to_date` maps the millisecond epoch value 0 to an
absent (`None`) date, and every non-zero value to a present RFC3339
datetime string; the shape is verified against the checker `isRfc3339Z`
for timestamps in the model's domain (positive, year at most 9999). -/
theorem ms_epoch_to_date_zero_absent_nonzero_rfc3339 :
    YarnStatusGetter.ms_epoch_to_date 0 = none ∧
    (∀ q : ℚ, q ≠ 0 → ∃ s, YarnStatusGetter.ms_epoch_to_date q = some s) ∧
    (∀ n : ℤ, 0 < n → (n : ℚ) ≤ 253402300799000 →
      ∃ s, YarnStatusGetter.ms_epoch_to_date (n : ℚ) = some s ∧ isRfc3339Z s = true) := by
  refine ⟨rfl, ?_, ?_⟩
  · intro q hq
    exact ⟨epochSecondsToRfc3339 (Int.toNat ⌊q / 1000⌋),
      by simp [YarnStatusGetter.ms_epoch_to_date, hq]⟩
  · intro n hn _
    have hq : (n : ℚ) ≠ 0 := by
      exact_mod_cast Int.ne_of_gt hn
    refine ⟨epochSecondsToRfc3339 (Int.toNat ⌊(n : ℚ) / 1000⌋),
      by simp [YarnStatusGetter.ms_epoch_to_date, hq], ?_⟩
    exact epochSecondsToRfc3339_shape _

theorem ms_epoch_to_date_zero_absent_nonzero_rfc3339_witness :
    ∃ s, YarnStatusGetter.ms_epoch_to_date ((1700000000123 : ℤ) : ℚ) = some s ∧
      isRfc3339Z s = true :=
  ms_epoch_to_date_zero_absent_nonzero_rfc3339.2.2 1700000000123
    (by norm_num) (by norm_num)

/-! ## C5, C6, C9: the status getters -/

def isJDict : JVal → Bool
  | .jdict _ => true
  | _ => false

/-- Python values for which `"k" in v` raises `TypeError` (non-iterables). -/
def nonIterable : JVal → Bool
  | .jnum _ => true
  | .jbool _ => true
  | .jnull => true
  | _ => false

namespace YarnStatusGetter

theorem parse_application_response_ne_appNotFound (data : List (String × JVal)) :
    parse_application_response data ≠ .error .appNotFound := by
  unfold parse_application_response
  cases hmk : missing_keys ((jget data "app").getD (.jdict [])) with
  | none => simp [hmk]
  | some missing =>
    by_cases hemp : missing.isEmpty
    · cases hpr : parseReport ((jget data "app").getD (.jdict [])) <;>
        simp [hmk, hemp, hpr]
    · simp [hmk, hemp]

theorem parse_application_response_ne_httpError (data : List (String × JVal)) (c : Nat) :
    parse_application_response data ≠ .error (.httpError c) := by
  unfold parse_application_response
  cases hmk : missing_keys ((jget data "app").getD (.jdict [])) with
  | none => simp [hmk]
  | some missing =>
    by_cases hemp : missing.isEmpty
    · cases hpr : parseReport ((jget data "app").getD (.jdict [])) <;>
        simp [hmk, hemp, hpr]
    · simp [hmk, hemp]

/-- C5 (amended): `get_job_metadata` raises `AppNotFound` exactly when
the YARN REST response has HTTP status 404; any other status in
[400, 600) propagates as an HTTP error; a non-dict JSON body raises
`YarnAppReportParseException`; a dict (or absent) application report
missing a required key raises `YarnAppReportParseException`; but a
non-iterable `app` value (number/bool/null) raises a `TypeError`
instead. -/
theorem yarn_get_job_metadata_error_classification :
    (∀ resp : HttpResponse,
      (get_job_metadata resp = .error .appNotFound ↔ resp.status_code = 404)) ∧
    (∀ resp : HttpResponse, resp.status_code ≠ 404 →
      400 ≤ resp.status_code → resp.status_code < 600 →
      get_job_metadata resp = .error (.httpError resp.status_code)) ∧
    (∀ resp : HttpResponse, resp.status_code ≠ 404 →
      ¬(400 ≤ resp.status_code ∧ resp.status_code < 600) →
      ∀ v, resp.body = some v → isJDict v = false →
      get_job_metadata resp = .error .parseException) ∧
    (∀ data : List (String × JVal), ∀ entries,
      (jget data "app").getD (.jdict []) = .jdict entries →
      (∃ k ∈ requiredKeys, pyIn k (.jdict entries) = false) →
      parse_application_response data = .error .parseException) ∧
    (∀ data : List (String × JVal), ∀ v, jget data "app" = some v →
      nonIterable v = true →
      parse_application_response data = .error .typeError) := by
  refine ⟨?_, ?_, ?_, ?_, ?_⟩
  · intro resp
    unfold get_job_metadata
    constructor
    · intro h
      by_cases h404 : resp.status_code = 404
      · exact h404
      · exfalso
        simp only [h404, if_false] at h
        by_cases hr : 400 ≤ resp.status_code ∧ resp.status_code < 600
        · simp [hr] at h
        · simp only [hr, if_false] at h
          cases hb : resp.body with
          | none => rw [hb] at h; simp at h
          | some v =>
            rw [hb] at h
            cases v with
            | jdict entries =>
              exact parse_application_response_ne_appNotFound entries (by simpa using h)
            | jnull => simp at h
            | jbool b => simp at h
            | jnum q => simp at h
            | jstr str => simp at h
            | jarr xs => simp at h
    · intro h
      simp [h]
  · intro resp h404 h400 h600
    unfold get_job_metadata
    simp [h404, h400, h600]
  · intro resp h404 hr v hb hnd
    unfold get_job_metadata
    simp only [h404, if_false, hr, if_false, hb]
    cases v <;> simp [isJDict] at hnd ⊢
  · intro data entries hrep hmiss
    unfold parse_application_response
    rw [hrep]
    obtain ⟨k, hk, hkin⟩ := hmiss
    cases hmk : missing_keys (.jdict entries) with
    | none => simp [missing_keys] at hmk
    | some missing =>
      have hfil : requiredKeys.filter (fun k2 => !(pyIn k2 (.jdict entries))) = missing := by
        have h2 := hmk
        simp only [missing_keys] at h2
        injection h2
      have hkmem : k ∈ missing := by
        rw [← hfil]
        simp [List.mem_filter, hk, hkin]
      cases missing with
      | nil => simp at hkmem
      | cons a l => simp [hmk]
  · intro data v happ hni
    unfold parse_application_response
    rw [happ]
    cases v <;> simp [nonIterable] at hni <;> simp [missing_keys]

end YarnStatusGetter

namespace YarnStatusGetter

/-- C5 counterexample: for the non-error response `{"app": 5}` the
application report (the value 5) is missing every required key, yet the
result is a `TypeError`, not `YarnAppReportParseException` — Python's
`k not in report` raises on a non-iterable report before the missing-key
check can conclude. -/
theorem yarn_app_report_type_error_counterexample :
    get_job_metadata ⟨200, some (.jdict [("app", .jnum 5)])⟩ = .error .typeError ∧
    pyIn "state" (.jnum 5) = false ∧
    (YarnFetchError.typeError ≠ YarnFetchError.parseException) :=
  ⟨rfl, rfl, by decide⟩

theorem yarn_get_job_metadata_error_classification_witness :
    get_job_metadata ⟨404, none⟩ = .error .appNotFound ∧
    get_job_metadata ⟨500, none⟩ = .error (.httpError 500) ∧
    get_job_metadata ⟨200, some (.jstr "oops")⟩ = .error .parseException ∧
    parse_application_response [("app", .jdict [("state", .jstr "RUNNING")])]
      = .error .parseException := by
  have h := yarn_get_job_metadata_error_classification
  refine ⟨(h.1 ⟨404, none⟩).mpr rfl,
    h.2.1 ⟨500, none⟩ (by decide) (by decide) (by decide),
    h.2.2.1 ⟨200, some (.jstr "oops")⟩ (by decide) (by decide) _ rfl rfl,
    h.2.2.2.1 [("app", .jdict [("state", .jstr "RUNNING")])]
      [("state", .jstr "RUNNING")] rfl ⟨"finalStatus", by decide, rfl⟩⟩

/-- C9 counterexample: a YARN report without `memorySeconds` still
produces a usage mapping that contains the "memory" metric, with a null
(`None`) value — the absent metric is not omitted. -/
theorem yarn_usage_null_metric_counterexample :
    (∃ md, parse_application_response
        [("app", .jdict [("state", .jstr "RUNNING"), ("finalStatus", .jstr "UNDEFINED"),
                         ("startedTime", .jnum 0), ("finishedTime", .jnum 0)])]
      = .ok md ∧
      md.usage = some [("memory", ⟨none, "mb-seconds"⟩), ("cpu", ⟨none, "cpu-seconds"⟩)] ∧
      ("memory", (⟨none, "mb-seconds"⟩ : UsageEntry)) ∈
        [("memory", (⟨none, "mb-seconds"⟩ : UsageEntry)),
         ("cpu", (⟨none, "cpu-seconds"⟩ : UsageEntry))]) ∧
    pyIn "memorySeconds"
      (.jdict [("state", .jstr "RUNNING"), ("finalStatus", .jstr "UNDEFINED"),
               ("startedTime", .jnum 0), ("finishedTime", .jnum 0)]) = false :=
  ⟨⟨⟨"running", none, none,
     some [("memory", ⟨none, "mb-seconds"⟩), ("cpu", ⟨none, "cpu-seconds"⟩)]⟩,
    rfl, rfl, List.mem_cons_self _ _⟩, rfl⟩

theorem parseReport_usage (report : JVal) (md : JobMetadata)
    (h : parseReport report = some md) :
    md.usage = some
      [("memory", ⟨pyGetOrNone report "memorySeconds", "mb-seconds"⟩),
       ("cpu", ⟨pyGetOrNone report "vcoreSeconds", "cpu-seconds"⟩)] := by
  unfold parseReport at h
  repeat' split at h
  all_goals cases h
  rfl

/-- C9 (amended): the YARN usage mapping always contains both metrics,
passing values absent from the report through as null; the Kubernetes
usage query never emits a partial mapping — a missing metric makes the
whole usage absent (`None`), as does any failed or malformed kubecost
response. -/
theorem usage_absent_metrics_representation :
    (∀ (data : List (String × JVal)) (md : JobMetadata),
      parse_application_response data = .ok md →
      md.usage = some
        [("memory", ⟨pyGetOrNone ((jget data "app").getD (.jdict [])) "memorySeconds",
            "mb-seconds"⟩),
         ("cpu", ⟨pyGetOrNone ((jget data "app").getD (.jdict [])) "vcoreSeconds",
            "cpu-seconds"⟩)]) ∧
    (∀ e, K8sStatusGetter.get_usage (.fail e) = none) ∧
    (∀ (body : K8sStatusGetter.KubecostBody)
        (first : List (String × K8sStatusGetter.KubecostAllocation)) rest cost,
      body.data = first :: rest →
      (first.find? (fun p => p.1 = "spark-jobs")).map (fun p => p.2) = some cost →
      cost.cpuCoreHours = none →
      K8sStatusGetter.get_usage (.ok body) = none) := by
  refine ⟨?_, fun e => rfl, ?_⟩
  · intro data md h
    unfold parse_application_response at h
    cases hmk : missing_keys ((jget data "app").getD (.jdict [])) with
    | none => rw [hmk] at h; simp at h
    | some missing =>
      rw [hmk] at h
      by_cases hemp : missing.isEmpty
      · cases hpr : parseReport ((jget data "app").getD (.jdict [])) with
        | none => rw [hpr] at h; simp [hemp] at h
        | some md2 =>
          rw [hpr] at h
          simp only [hemp, if_true] at h
          have hmd : md2 = md := by
            cases missing with
            | nil => simpa using h
            | cons a l => simp at hemp
          rw [← hmd]
          exact parseReport_usage _ _ hpr
      · simp [hemp] at h
  · intro body first rest cost hdata hfind hcpu
    unfold K8sStatusGetter.get_usage
    simp only
    rw [hdata]
    simp only
    rw [hfind]
    simp [hcpu]

end YarnStatusGetter

namespace K8sStatusGetter

/-- C6 counterexample: a successful kubecost query reports the raw
cpu-core-hours under unit "cpu-hours" and ram-byte-hours/2^20 under
"mb-hours" — not cpu-seconds-equivalent / mb-seconds-equivalent units. -/
theorem k8s_usage_units_counterexample :
    get_usage (.ok ⟨200, [[("spark-jobs", ⟨some 2, some 3145728⟩)]]⟩)
      = some [("cpu", ⟨some (.jnum 2), "cpu-hours"⟩),
              ("memory", ⟨some (.jnum 3), "mb-hours"⟩)] ∧
    ("cpu-hours" ≠ "cpu-seconds") ∧ ("mb-hours" ≠ "mb-seconds") := by
  refine ⟨?_, by decide, by decide⟩
  show get_usage _ = _
  norm_num [get_usage]

/-- C6 (amended): on a successful kubecost query `_get_usage` reports
`cpuCoreHours` under unit "cpu-hours" and `ramByteHours / 2^20` under
unit "mb-hours"; any failure of the query (exception, non-200 code,
empty data, missing namespace or metric) is caught and yields no usage
data (`None`) rather than failing the status fetch. -/
theorem k8s_get_usage_hours_units :
    (∀ e, get_usage (.fail e) = none) ∧
    (∀ body : KubecostBody, body.code ≠ 200 → get_usage (.ok body) = none) ∧
    (∀ body : KubecostBody, body.data = [] → get_usage (.ok body) = none) ∧
    (∀ (body : KubecostBody) (first : List (String × KubecostAllocation)) rest cpu ram,
      body.code = 200 → body.data = first :: rest →
      (first.find? (fun p => p.1 = "spark-jobs")).map (fun p => p.2)
        = some ⟨some cpu, some ram⟩ →
      get_usage (.ok body)
        = some [("cpu", ⟨some (.jnum cpu), "cpu-hours"⟩),
                ("memory", ⟨some (.jnum (ram / (1024 * 1024))), "mb-hours"⟩)]) := by
  refine ⟨fun e => rfl, ?_, ?_, ?_⟩
  · intro body hcode
    unfold get_usage
    simp [hcode]
  · intro body hdata
    unfold get_usage
    simp only
    rw [hdata]
    simp
  · intro body first rest cpu ram hcode hdata hfind
    unfold get_usage
    simp only
    rw [hdata]
    simp only
    rw [hfind]
    simp [hcode]

theorem k8s_get_usage_hours_units_witness :
    get_usage (.fail "connection refused") = none ∧
    get_usage (.ok ⟨500, []⟩) = none ∧
    get_usage (.ok ⟨200, [[("spark-jobs", ⟨some 4, some 1048576⟩)]]⟩)
      = some [("cpu", ⟨some (.jnum 4), "cpu-hours"⟩),
              ("memory", ⟨some (.jnum 1), "mb-hours"⟩)] := by
  have h := k8s_get_usage_hours_units
  refine ⟨h.1 "connection refused", h.2.1 ⟨500, []⟩ (by decide), ?_⟩
  have h4 := h.2.2.2 ⟨200, [[("spark-jobs", ⟨some 4, some 1048576⟩)]]⟩
    [("spark-jobs", ⟨some 4, some 1048576⟩)] [] 4 1048576 rfl rfl rfl
  have hq : (1048576 / (1024 * 1024) : ℚ) = 1 := by norm_num
  rw [hq] at h4
  exact h4

end K8sStatusGetter


theorem usage_absent_metrics_representation_witness :
    JobMetadata.usage
        ⟨"canceled", none, none,
         some [("memory", ⟨none, "mb-seconds"⟩), ("cpu", ⟨none, "cpu-seconds"⟩)]⟩
      = some
        [("memory", ⟨YarnStatusGetter.pyGetOrNone
            ((jget [("app", JVal.jdict
                [("state", JVal.jstr "KILLED"), ("finalStatus", JVal.jstr "KILLED"),
                 ("startedTime", JVal.jnum 0), ("finishedTime", JVal.jnum 0)])] "app").getD
              (JVal.jdict [])) "memorySeconds", "mb-seconds"⟩),
         ("cpu", ⟨YarnStatusGetter.pyGetOrNone
            ((jget [("app", JVal.jdict
                [("state", JVal.jstr "KILLED"), ("finalStatus", JVal.jstr "KILLED"),
                 ("startedTime", JVal.jnum 0), ("finishedTime", JVal.jnum 0)])] "app").getD
              (JVal.jdict [])) "vcoreSeconds", "cpu-seconds"⟩)] ∧
    K8sStatusGetter.get_usage (.ok ⟨200, [[("spark-jobs", ⟨none, some 5⟩)]]⟩) = none := by
  have h := YarnStatusGetter.usage_absent_metrics_representation
  refine ⟨?_, ?_⟩
  · exact h.1 _ ⟨"canceled", none, none,
      some [("memory", ⟨none, "mb-seconds"⟩), ("cpu", ⟨none, "cpu-seconds"⟩)]⟩ rfl
  · exact h.2.2 ⟨200, [[("spark-jobs", ⟨none, some 5⟩)]]⟩
      [("spark-jobs", ⟨none, some 5⟩)] [] ⟨none, some 5⟩ rfl rfl rfl

end JobTrackerV2
